import Mathlib

/-!
Shallow embedding of `src/turbomind/models/llama/LlamaFfnLayer.cc` (lmdeploy).

The layer's `forward` is modelled as a pure function producing a trace of
collaborator invocations (allocator, projection engine `linear_->forward`,
activation kernel, `count_and_fix` diagnostics, buffer frees) together with
the resulting member state of the layer. Pointers are modelled symbolically:
the scratch gating buffer is an abstract base plus an element offset, and the
other device regions are distinct abstract addresses.
-/

namespace FfnLayer

/-- Symbolic device pointers. `gating off` is `gating_buf_ + off` (element
offset); the other constructors are the distinct regions the layer touches. -/
inductive Ptr where
  | null
  | gating (off : Nat)
  | lora
  | input
  | output
  | mask
deriving Repr, DecidableEq

/-- Low-rank adapter parameters of a dense weight (`LlamaDenseWeight::lora`). -/
structure LoraParam where
  r : Nat
deriving Repr, DecidableEq

/-- A dense weight descriptor. `kernel` records whether the kernel pointer is
non-null (the code only ever tests `fused_gating_intermediate.kernel` for
null-ness). -/
structure LlamaDenseWeight where
  kernel : Bool
  input_dims : Nat
  output_dims : Nat
  lora : LoraParam
deriving Repr, DecidableEq

/-- The FFN weight bundle (`LlamaFfnWeight<T>`). -/
structure LlamaFfnWeight where
  gating : LlamaDenseWeight
  intermediate : LlamaDenseWeight
  output : LlamaDenseWeight
  fused_gating_intermediate : LlamaDenseWeight
  is_fused_silu : Bool
  inter_size : Nat
deriving Repr, DecidableEq

/-- Identifies which weight descriptor a projection-engine call uses. -/
inductive WeightId where
  | gating
  | intermediate
  | output
  | fused
deriving Repr, DecidableEq

/-- The `LlamaLinear<T>` dispatch type passed to the projection engine. -/
inductive LinearType where
  | kGemm
  | kFusedSiluFfn
deriving Repr, DecidableEq

/-- One collaborator invocation, in program order.

* `allocGating n` — `allocator_->reMalloc(gating_buf_, sizeof(T) * n, false)`
  (`n` in elements);
* `allocLora n` — `allocator_->reMalloc(lora_buf_, sizeof(T) * n)`;
* `linearFwd dst src srcPitch token_num w ty lb lm` — `linear_->forward`;
  `lb`/`lm` are `none` when the call does not pass the workspace/mask
  arguments (the fused call), `some p` when it passes the pointer `p`;
* `activationEv chunked gate up stride token_num inter_size` — the
  `activation(token_num, inter_size, is_chunked)` member call together with
  the `invokeGenericActivation_v2<SiluActivation>` arguments it resolves to;
* `countFix p n tag sev` — `count_and_fix(p, n, tag, sev)`;
* `freeGating` / `freeLora` — `allocator_->free` on the two handles. -/
inductive Event where
  | allocGating (elems : Nat)
  | allocLora (elems : Nat)
  | linearFwd (dst : Ptr) (src : Ptr) (srcPitch : Nat) (token_num : Nat)
      (weight : WeightId) (ty : LinearType)
      (loraBuf : Option Ptr) (loraMask : Option Ptr)
  | activationEv (chunked : Bool) (gate : Ptr) (up : Ptr)
      (stride : Nat) (token_num : Nat) (inter_size : Nat)
  | countFix (p : Ptr) (elems : Nat) (tag : String) (severity : Nat)
  | freeGating
  | freeLora
deriving Repr, DecidableEq

/-- The member state of a `LlamaFfnLayer<T>` instance: the two scratch
handles (`none` = null pointer; for an allocated gating/lora buffer the
payload is its current capacity in elements), the `inter_buf_` pointer
value, and the `is_allocate_buffer_` flag. -/
structure FfnState where
  gating_buf : Option Nat
  inter_buf : Ptr
  lora_buf : Option Nat
  is_allocate_buffer : Bool
deriving Repr, DecidableEq

/-- Modelled from the spec: a fresh layer holds no allocation — buffers are
allocated on first use (the member initializers live in `LlamaFfnLayer.h`,
which is not part of the sources). -/
def FfnState.init : FfnState :=
  { gating_buf := none, inter_buf := Ptr.null, lora_buf := none,
    is_allocate_buffer := false }

/-- Modelled from the spec: `allocator_->reMalloc` (the allocator lives
outside this layer) guarantees a region of at least the requested size and
reallocation only grows, never shrinks. -/
def reMallocSize (old : Option Nat) (requested : Nat) : Nat :=
  max (old.getD 0) requested

/-- The `lora_buf_` pointer value passed to the projection engine: the lora
workspace base when allocated, the null pointer otherwise. -/
def loraPtr (st : FfnState) : Ptr :=
  if st.lora_buf.isSome then Ptr.lora else Ptr.null

/-- `LlamaFfnLayer<T>::allocateBuffer`: requests
`token_num * inter_size * inter_buf_factor` elements for the gating buffer,
points `inter_buf_` at `gating_buf_ + token_num * inter_size`, and requests a
lora workspace of `token_num * (gating_lora_r + inter_lora_r)` elements iff
the combined rank is nonzero. -/
def allocateBuffer (st : FfnState) (token_num : Nat) (inter_size : Nat)
    (inter_buf_factor : Nat) (gating_lora_r : Nat) (inter_lora_r : Nat) :
    List Event × FfnState :=
  let sz := token_num * inter_size
  let gatingReq := sz * inter_buf_factor
  let loraReq := token_num * (gating_lora_r + inter_lora_r)
  let events :=
    [Event.allocGating gatingReq] ++
      (if gating_lora_r + inter_lora_r ≠ 0 then [Event.allocLora loraReq] else [])
  let st' : FfnState :=
    { gating_buf := some (reMallocSize st.gating_buf gatingReq)
      inter_buf := Ptr.gating sz
      lora_buf :=
        if gating_lora_r + inter_lora_r ≠ 0 then
          some (reMallocSize st.lora_buf loraReq)
        else st.lora_buf
      is_allocate_buffer := true }
  (events, st')

/-- `LlamaFfnLayer<T>::freeBuffer`: when `is_allocate_buffer_` is set, frees
both handles (the allocator nulls them) and clears the flag; otherwise does
nothing. `inter_buf_` is left untouched. -/
def freeBuffer (st : FfnState) : List Event × FfnState :=
  if st.is_allocate_buffer then
    ([Event.freeGating, Event.freeLora],
      { st with gating_buf := none, lora_buf := none, is_allocate_buffer := false })
  else ([], st)

/-- `LlamaFfnLayer<T>::activation`: chunked mode reads gate and up from the
same buffer (`gating_buf_` and `gating_buf_ + inter_size`, stride
`inter_size * 2`); separate mode reads `gating_buf_` and `inter_buf_` with
stride `inter_size`. -/
def activation (st : FfnState) (token_num : Nat) (inter_size : Nat)
    (is_chunked : Bool) : List Event :=
  if is_chunked then
    [Event.activationEv true (Ptr.gating 0) (Ptr.gating inter_size)
      (inter_size * 2) token_num inter_size]
  else
    [Event.activationEv false (Ptr.gating 0) st.inter_buf
      inter_size token_num inter_size]

/-- Modelled from the spec: `Concat` (from `llama_utils.h`, not among the
sources) builds the descriptive diagnostic tag `"<name>_<layer_id>"`. -/
def Concat (name : String) (layer_id : Int) : String :=
  name ++ "_" ++ toString layer_id

/-- Error raised by `TensorMap::at` on a missing required key. -/
inductive FfnError where
  | missingInput (key : String)
deriving Repr, DecidableEq

/-- The named inputs of a forward call: presence (and leading shape) of
`"ffn_input"`, presence of `"layer_id"`, and presence of the optional
`"lora_mask"` (which defaults to a null tensor when absent). -/
structure TensorMapIn where
  ffn_input_token_num : Option Nat
  layer_id : Option Int
  has_lora_mask : Bool
deriving Repr, DecidableEq

/-- The named outputs of a forward call: presence of `"ffn_output"`. -/
structure TensorMapOut where
  has_ffn_output : Bool
deriving Repr, DecidableEq

/-- Per-layer policy flags relevant here: `is_free_buffer_after_forward_`. -/
structure LayerOptions where
  is_free_buffer_after_forward : Bool
deriving Repr, DecidableEq

/-- `LlamaFfnLayer<T>::forward`, as a pure function: returns the trace of
collaborator invocations in program order and either the resulting member
state or the error a throwing lookup raises (with the trace listing exactly
the invocations issued before the throw). -/
def forward (opts : LayerOptions) (st : FfnState)
    (output_tensors : TensorMapOut) (input_tensors : TensorMapIn)
    (weights : LlamaFfnWeight) : List Event × Except FfnError FfnState :=
  match input_tensors.ffn_input_token_num with
  | none => ([], Except.error (FfnError.missingInput "ffn_input"))
  | some token_num =>
    match input_tensors.layer_id with
    | none => ([], Except.error (FfnError.missingInput "layer_id"))
    | some layer_id =>
      let inter_size := weights.inter_size
      let is_fused_silu :=
        weights.fused_gating_intermediate.kernel && weights.is_fused_silu
      let alloc := allocateBuffer st token_num inter_size
        (if is_fused_silu then 1 else 2)
        weights.gating.lora.r weights.intermediate.lora.r
      let allocEvents := alloc.1
      let st₁ := alloc.2
      if output_tensors.has_ffn_output then
        let lora_mask :=
          if input_tensors.has_lora_mask then Ptr.mask else Ptr.null
        let mainEvents :=
          if weights.fused_gating_intermediate.kernel then
            [Event.linearFwd (Ptr.gating 0) Ptr.input 0 token_num
                WeightId.fused
                (if weights.is_fused_silu then LinearType.kFusedSiluFfn
                 else LinearType.kGemm)
                none none] ++
              (if !weights.is_fused_silu then
                activation st₁ token_num inter_size true
               else []) ++
              [Event.countFix (Ptr.gating 0)
                (token_num * weights.output.input_dims)
                (Concat "w1_w3_silu" layer_id) 3]
          else
            [Event.linearFwd (Ptr.gating 0) Ptr.input 0 token_num
                WeightId.gating LinearType.kGemm
                (some (loraPtr st₁)) (some lora_mask),
              Event.countFix (Ptr.gating 0)
                (token_num * weights.gating.output_dims)
                (Concat "w1" layer_id) 3,
              Event.linearFwd st₁.inter_buf Ptr.input 0 token_num
                WeightId.intermediate LinearType.kGemm
                (some (loraPtr st₁)) (some lora_mask),
              Event.countFix st₁.inter_buf
                (token_num * weights.intermediate.output_dims)
                (Concat "w3" layer_id) 3] ++
              activation st₁ token_num inter_size false ++
              [Event.countFix (Ptr.gating 0)
                (token_num * weights.output.input_dims)
                (Concat "act" layer_id) 3]
        let pitch :=
          if weights.fused_gating_intermediate.kernel && !weights.is_fused_silu
          then inter_size * 2 else 0
        let w2Events :=
          [Event.linearFwd Ptr.output (Ptr.gating 0) pitch token_num
              WeightId.output LinearType.kGemm
              (some (loraPtr st₁)) (some lora_mask),
            Event.countFix Ptr.output
              (token_num * weights.output.output_dims)
              (Concat "w2" layer_id) 3]
        let fin :=
          if opts.is_free_buffer_after_forward then freeBuffer st₁
          else ([], st₁)
        (allocEvents ++ mainEvents ++ w2Events ++ fin.1, Except.ok fin.2)
      else
        (allocEvents, Except.error (FfnError.missingInput "ffn_output"))

/-- The trace of collaborator invocations of a forward call. -/
def ffnTrace (opts : LayerOptions) (st : FfnState)
    (output_tensors : TensorMapOut) (input_tensors : TensorMapIn)
    (weights : LlamaFfnWeight) : List Event :=
  (forward opts st output_tensors input_tensors weights).1

/-- The result (new member state or error) of a forward call. -/
def ffnResult (opts : LayerOptions) (st : FfnState)
    (output_tensors : TensorMapOut) (input_tensors : TensorMapIn)
    (weights : LlamaFfnWeight) : Except FfnError FfnState :=
  (forward opts st output_tensors input_tensors weights).2

/-- The three states of the projection pipeline. -/
inductive FfnPath where
  | FUSED_SILU
  | FUSED_UNACTIVATED
  | UNFUSED
deriving Repr, DecidableEq

/-- The state the forward call selects, read off the weight configuration
exactly as the code tests it. -/
def selectPath (w : LlamaFfnWeight) : FfnPath :=
  if w.fused_gating_intermediate.kernel && w.is_fused_silu then
    FfnPath.FUSED_SILU
  else if w.fused_gating_intermediate.kernel then
    FfnPath.FUSED_UNACTIVATED
  else
    FfnPath.UNFUSED

/-- Recognises activation-dispatcher invocations in a trace. -/
def Event.isAct : Event → Bool
  | Event.activationEv _ _ _ _ _ _ => true
  | _ => false

/-- Recognises down-projection (`weights->output`) engine calls. -/
def Event.isDown : Event → Bool
  | Event.linearFwd _ _ _ _ WeightId.output _ _ _ => true
  | _ => false

/-- Recognises fused gate+up projection engine calls. -/
def Event.isFusedProj : Event → Bool
  | Event.linearFwd _ _ _ _ WeightId.fused _ _ _ => true
  | _ => false

/-- Recognises diagnostics-hook (`count_and_fix`) invocations. -/
def Event.isCountFix : Event → Bool
  | Event.countFix _ _ _ _ => true
  | _ => false

/-- Recognises gating-buffer allocation requests. -/
def Event.isAllocGating : Event → Bool
  | Event.allocGating _ => true
  | _ => false

/-- Recognises adapter-workspace allocation requests. -/
def Event.isAllocLora : Event → Bool
  | Event.allocLora _ => true
  | _ => false

/-- Whether an event mentions the pointer `p` among its region arguments. -/
def Event.touches : Event → Ptr → Bool
  | Event.linearFwd dst src _ _ _ _ lb lm, p =>
      dst = p || src = p || lb = some p || lm = some p
  | Event.activationEv _ a b _ _ _, p => a = p || b = p
  | Event.countFix q _ _ _, p => q = p
  | _, _ => false

/-- Whether an event avoids the pointer `p` entirely. -/
def notTouches (p : Ptr) (e : Event) : Bool :=
  ! e.touches p

/-- Whether a projection-engine call passes both the adapter-workspace and
per-token-mask arguments. -/
def Event.passesAdapterArgs : Event → Bool
  | Event.linearFwd _ _ _ _ _ _ (some _) (some _) => true
  | _ => false

/-- The member state right after `allocateBuffer`, with the factor and ranks
the forward call passes. -/
def postAllocState (st : FfnState) (token_num : Nat) (w : LlamaFfnWeight) :
    FfnState :=
  (allocateBuffer st token_num w.inter_size
    (if w.fused_gating_intermediate.kernel && w.is_fused_silu then 1 else 2)
    w.gating.lora.r w.intermediate.lora.r).2

/-- A dense weight descriptor for concrete examples. -/
def exDense (k : Bool) (idim odim r : Nat) : LlamaDenseWeight :=
  { kernel := k, input_dims := idim, output_dims := odim, lora := { r := r } }

/-- Example weights: unfused path, gate/up adapters of ranks 2 and 3. -/
def exWeightsUnfused : LlamaFfnWeight :=
  { gating := exDense true 8 16 2
    intermediate := exDense true 8 16 3
    output := exDense true 16 8 0
    fused_gating_intermediate := exDense false 8 32 0
    is_fused_silu := false
    inter_size := 16 }

/-- Example weights: fused gate+up descriptor present, activation not baked
in (`FUSED_UNACTIVATED`). -/
def exWeightsFusedUn : LlamaFfnWeight :=
  { exWeightsUnfused with fused_gating_intermediate := exDense true 8 32 0 }

/-- Example weights: fused gate+up descriptor with baked-in activation
(`FUSED_SILU`), adapter ranks zero. -/
def exWeightsFusedSilu : LlamaFfnWeight :=
  { exWeightsFusedUn with
    is_fused_silu := true
    gating := exDense true 8 16 0
    intermediate := exDense true 8 16 0 }

/-! Theorems settling the claims. -/

/-- C6: a forward call whose named inputs lack `"ffn_input"` fails before any
scratch allocation is requested and before any projection-engine or
activation invocation is issued: the trace is empty and the result is the
missing-input error. -/
theorem forward_missing_ffn_input_fails_early
    (opts : LayerOptions) (st : FfnState) (out : TensorMapOut)
    (inp : TensorMapIn) (w : LlamaFfnWeight)
    (hin : inp.ffn_input_token_num = none) :
    forward opts st out inp w =
      ([], Except.error (FfnError.missingInput "ffn_input")) := by
  simp [forward, hin]

/-- C6 witness at a concrete input. -/
theorem forward_missing_ffn_input_fails_early_witness :
    forward { is_free_buffer_after_forward := false } FfnState.init
        { has_ffn_output := true }
        { ffn_input_token_num := none, layer_id := some 5, has_lora_mask := false }
        exWeightsUnfused =
      ([], Except.error (FfnError.missingInput "ffn_input")) :=
  forward_missing_ffn_input_fails_early _ _ _ _ _ rfl

/-- C1: exactly one of the three pipeline states is selected from the weight
configuration (fused descriptor present with baked-in activation ↔
`FUSED_SILU`; present without ↔ `FUSED_UNACTIVATED`; absent ↔ `UNFUSED`),
and the activation dispatcher runs in chunked mode exactly in
`FUSED_UNACTIVATED`, in separate mode exactly in `UNFUSED`, and not at all
in `FUSED_SILU`. -/
theorem forward_state_selection_and_activation_mode
    (opts : LayerOptions) (st : FfnState) (out : TensorMapOut)
    (inp : TensorMapIn) (w : LlamaFfnWeight) (token_num : Nat) (layer_id : Int)
    (hin : inp.ffn_input_token_num = some token_num)
    (hid : inp.layer_id = some layer_id)
    (hout : out.has_ffn_output = true) :
    ((w.fused_gating_intermediate.kernel = true ∧ w.is_fused_silu = true) ↔
        selectPath w = FfnPath.FUSED_SILU) ∧
    ((w.fused_gating_intermediate.kernel = true ∧ w.is_fused_silu = false) ↔
        selectPath w = FfnPath.FUSED_UNACTIVATED) ∧
    (w.fused_gating_intermediate.kernel = false ↔
        selectPath w = FfnPath.UNFUSED) ∧
    (selectPath w = FfnPath.FUSED_SILU →
        (ffnTrace opts st out inp w).filter Event.isAct = []) ∧
    (selectPath w = FfnPath.FUSED_UNACTIVATED →
        (ffnTrace opts st out inp w).filter Event.isAct =
          [Event.activationEv true (Ptr.gating 0) (Ptr.gating w.inter_size)
            (w.inter_size * 2) token_num w.inter_size]) ∧
    (selectPath w = FfnPath.UNFUSED →
        (ffnTrace opts st out inp w).filter Event.isAct =
          [Event.activationEv false (Ptr.gating 0)
            (Ptr.gating (token_num * w.inter_size))
            w.inter_size token_num w.inter_size]) := by
  cases hk : w.fused_gating_intermediate.kernel <;>
    cases hs : w.is_fused_silu <;>
    cases ho : opts.is_free_buffer_after_forward <;>
    simp [ffnTrace, forward, hin, hid, hout, hk, hs, ho, selectPath,
      allocateBuffer, activation, freeBuffer, Event.isAct, loraPtr]

/-- C1 witness: on concrete fused-unactivated weights, the dispatcher runs
exactly once, in chunked mode. -/
theorem forward_state_selection_and_activation_mode_witness :
    (ffnTrace { is_free_buffer_after_forward := false } FfnState.init
        { has_ffn_output := true }
        { ffn_input_token_num := some 4, layer_id := some 5,
          has_lora_mask := true }
        exWeightsFusedUn).filter Event.isAct =
      [Event.activationEv true (Ptr.gating 0) (Ptr.gating 16) 32 4 16] :=
  (forward_state_selection_and_activation_mode _ _ _ _ exWeightsFusedUn 4 5
      rfl rfl rfl).2.2.2.2.1 (by decide)

/-- C4: the gating-region allocation request per forward call is exactly
`token_num * inter_size * factor` elements with `factor = 1` iff the
`FUSED_SILU` path is selected and `factor = 2` otherwise. -/
theorem forward_gating_alloc_size
    (opts : LayerOptions) (st : FfnState) (out : TensorMapOut)
    (inp : TensorMapIn) (w : LlamaFfnWeight) (token_num : Nat) (layer_id : Int)
    (hin : inp.ffn_input_token_num = some token_num)
    (hid : inp.layer_id = some layer_id)
    (hout : out.has_ffn_output = true)
    (htn : 0 < token_num) (his : 0 < w.inter_size) :
    (ffnTrace opts st out inp w).filter Event.isAllocGating =
      [Event.allocGating (token_num * w.inter_size *
        (if selectPath w = FfnPath.FUSED_SILU then 1 else 2))] := by
  cases hk : w.fused_gating_intermediate.kernel <;>
    cases hs : w.is_fused_silu <;>
    cases ho : opts.is_free_buffer_after_forward <;>
    simp [ffnTrace, forward, hin, hid, hout, hk, hs, ho, selectPath,
      allocateBuffer, activation, freeBuffer, Event.isAllocGating, loraPtr]

/-- C4 witness: 4 tokens, `inter_size` 16, fused-silu weights request
`4 * 16 * 1` elements. -/
theorem forward_gating_alloc_size_witness :
    (ffnTrace { is_free_buffer_after_forward := false } FfnState.init
        { has_ffn_output := true }
        { ffn_input_token_num := some 4, layer_id := some 5,
          has_lora_mask := false }
        exWeightsFusedSilu).filter Event.isAllocGating =
      [Event.allocGating (4 * 16 *
        (if selectPath exWeightsFusedSilu = FfnPath.FUSED_SILU then 1 else 2))] :=
  forward_gating_alloc_size _ _ _ _ exWeightsFusedSilu 4 5 rfl rfl rfl
    (by decide) (by decide)

/-- C2: the final down-projection reads the gating region with read stride
`inter_size * 2` exactly in the `FUSED_UNACTIVATED` state and with stride 0
in the `FUSED_SILU` and `UNFUSED` states, writing the layer's output
region. -/
theorem forward_down_projection_stride
    (opts : LayerOptions) (st : FfnState) (out : TensorMapOut)
    (inp : TensorMapIn) (w : LlamaFfnWeight) (token_num : Nat) (layer_id : Int)
    (hin : inp.ffn_input_token_num = some token_num)
    (hid : inp.layer_id = some layer_id)
    (hout : out.has_ffn_output = true) :
    (ffnTrace opts st out inp w).filter Event.isDown =
      [Event.linearFwd Ptr.output (Ptr.gating 0)
        (if selectPath w = FfnPath.FUSED_UNACTIVATED then w.inter_size * 2
         else 0)
        token_num WeightId.output LinearType.kGemm
        (some (loraPtr (postAllocState st token_num w)))
        (some (if inp.has_lora_mask then Ptr.mask else Ptr.null))] := by
  cases hk : w.fused_gating_intermediate.kernel <;>
    cases hs : w.is_fused_silu <;>
    cases ho : opts.is_free_buffer_after_forward <;>
    simp [ffnTrace, forward, hin, hid, hout, hk, hs, ho, selectPath,
      postAllocState, allocateBuffer, activation, freeBuffer, Event.isDown,
      loraPtr]

/-- C2 witness: fused-unactivated weights give read stride `16 * 2 = 32`. -/
theorem forward_down_projection_stride_witness :
    (ffnTrace { is_free_buffer_after_forward := false } FfnState.init
        { has_ffn_output := true }
        { ffn_input_token_num := some 4, layer_id := some 5,
          has_lora_mask := true }
        exWeightsFusedUn).filter Event.isDown =
      [Event.linearFwd Ptr.output (Ptr.gating 0) 32 4 WeightId.output
        LinearType.kGemm (some Ptr.lora) (some Ptr.mask)] :=
  (forward_down_projection_stride _ _ _ _ exWeightsFusedUn 4 5
      rfl rfl rfl).trans (by decide)

/-- C3 counterexample: at a concrete input (unfused weights with adapter
ranks 2 and 3 and a supplied mask) the down-projection engine call does pass
the adapter workspace pointer and the per-token mask, contradicting the
claim that it is issued without them. -/
theorem forward_down_projection_carries_adapter_cex :
    (ffnTrace { is_free_buffer_after_forward := false } FfnState.init
        { has_ffn_output := true }
        { ffn_input_token_num := some 4, layer_id := some 5,
          has_lora_mask := true }
        exWeightsUnfused).filter Event.isDown =
      [Event.linearFwd Ptr.output (Ptr.gating 0) 0 4 WeightId.output
        LinearType.kGemm (some Ptr.lora) (some Ptr.mask)] ∧
    Event.passesAdapterArgs
      (Event.linearFwd Ptr.output (Ptr.gating 0) 0 4 WeightId.output
        LinearType.kGemm (some Ptr.lora) (some Ptr.mask)) = true := by
  decide

/-- C3 amended: the down-projection engine call is issued exactly once per
forward call and always passes both the adapter workspace pointer and the
per-token mask pointer (the same arguments the unfused gate/up calls pass);
output-side adapter application is delegated to the projection engine. -/
theorem forward_down_projection_adapter_args
    (opts : LayerOptions) (st : FfnState) (out : TensorMapOut)
    (inp : TensorMapIn) (w : LlamaFfnWeight) (token_num : Nat) (layer_id : Int)
    (hin : inp.ffn_input_token_num = some token_num)
    (hid : inp.layer_id = some layer_id)
    (hout : out.has_ffn_output = true) :
    ((ffnTrace opts st out inp w).filter Event.isDown).all
        Event.passesAdapterArgs = true ∧
    ((ffnTrace opts st out inp w).filter Event.isDown).length = 1 := by
  cases hk : w.fused_gating_intermediate.kernel <;>
    cases hs : w.is_fused_silu <;>
    cases ho : opts.is_free_buffer_after_forward <;>
    simp [ffnTrace, forward, hin, hid, hout, hk, hs, ho,
      allocateBuffer, activation, freeBuffer, Event.isDown,
      Event.passesAdapterArgs, loraPtr]

/-- C3 amended witness at a concrete input. -/
theorem forward_down_projection_adapter_args_witness :
    ((ffnTrace { is_free_buffer_after_forward := false } FfnState.init
        { has_ffn_output := true }
        { ffn_input_token_num := some 4, layer_id := some 5,
          has_lora_mask := true }
        exWeightsUnfused).filter Event.isDown).all
      Event.passesAdapterArgs = true :=
  (forward_down_projection_adapter_args _ _ _ _ exWeightsUnfused 4 5
      rfl rfl rfl).1

/-- C5 counterexample: at a concrete `FUSED_UNACTIVATED` input the full
trace contains exactly two diagnostics-hook invocations — one after the
activation (tag `"w1_w3_silu_5"`), covering projection and activation
together, and one after the down-projection (tag `"w2_5"`) — not the three
(after the fused projection, again after the activation, and after the
down-projection) the claim requires. -/
theorem forward_diagnostics_hook_count_cex :
    ffnTrace { is_free_buffer_after_forward := false } FfnState.init
        { has_ffn_output := true }
        { ffn_input_token_num := some 4, layer_id := some 5,
          has_lora_mask := true }
        exWeightsFusedUn =
      [Event.allocGating 128,
        Event.allocLora 20,
        Event.linearFwd (Ptr.gating 0) Ptr.input 0 4 WeightId.fused
          LinearType.kGemm none none,
        Event.activationEv true (Ptr.gating 0) (Ptr.gating 16) 32 4 16,
        Event.countFix (Ptr.gating 0) 64 "w1_w3_silu_5" 3,
        Event.linearFwd Ptr.output (Ptr.gating 0) 32 4 WeightId.output
          LinearType.kGemm (some Ptr.lora) (some Ptr.mask),
        Event.countFix Ptr.output 32 "w2_5" 3] ∧
    (ffnTrace { is_free_buffer_after_forward := false } FfnState.init
        { has_ffn_output := true }
        { ffn_input_token_num := some 4, layer_id := some 5,
          has_lora_mask := true }
        exWeightsFusedUn).countP Event.isCountFix = 2 := by
  decide

/-- C5 amended: the diagnostics hook is invoked with the written region, its
element count, tag `"<projection-name>_<layer_id>"` and fixed severity 3:
in the unfused state after each of the gate projection (`w1`), the up
projection (`w3`) and the activation (`act`); in both fused states exactly
once before the down-projection (tag `w1_w3_silu`), after the fused
projection and, when the activation is separate, after it; and in every
state once after the down-projection (`w2`). -/
theorem forward_diagnostics_hooks
    (opts : LayerOptions) (st : FfnState) (out : TensorMapOut)
    (inp : TensorMapIn) (w : LlamaFfnWeight) (token_num : Nat) (layer_id : Int)
    (hin : inp.ffn_input_token_num = some token_num)
    (hid : inp.layer_id = some layer_id)
    (hout : out.has_ffn_output = true) :
    (ffnTrace opts st out inp w).filter Event.isCountFix =
      (if w.fused_gating_intermediate.kernel then
        [Event.countFix (Ptr.gating 0) (token_num * w.output.input_dims)
          (Concat "w1_w3_silu" layer_id) 3]
       else
        [Event.countFix (Ptr.gating 0) (token_num * w.gating.output_dims)
          (Concat "w1" layer_id) 3,
         Event.countFix (Ptr.gating (token_num * w.inter_size))
          (token_num * w.intermediate.output_dims) (Concat "w3" layer_id) 3,
         Event.countFix (Ptr.gating 0) (token_num * w.output.input_dims)
          (Concat "act" layer_id) 3]) ++
      [Event.countFix Ptr.output (token_num * w.output.output_dims)
        (Concat "w2" layer_id) 3] := by
  cases hk : w.fused_gating_intermediate.kernel <;>
    cases hs : w.is_fused_silu <;>
    cases ho : opts.is_free_buffer_after_forward <;>
    simp [ffnTrace, forward, hin, hid, hout, hk, hs, ho,
      allocateBuffer, activation, freeBuffer, Event.isCountFix, loraPtr]

/-- C5 amended witness at a concrete input. -/
theorem forward_diagnostics_hooks_witness :
    (ffnTrace { is_free_buffer_after_forward := false } FfnState.init
        { has_ffn_output := true }
        { ffn_input_token_num := some 4, layer_id := some 5,
          has_lora_mask := true }
        exWeightsFusedUn).filter Event.isCountFix =
      [Event.countFix (Ptr.gating 0) 64 "w1_w3_silu_5" 3,
        Event.countFix Ptr.output 32 "w2_5" 3] :=
  (forward_diagnostics_hooks _ _ _ _ exWeightsFusedUn 4 5
      rfl rfl rfl).trans (by decide)

/-- C7: the adapter workspace is allocated exactly when the combined gate/up
adapter rank is nonzero, with size `token_num * (gate_rank + up_rank)`
elements; with both ranks zero no workspace allocation is requested and an
empty workspace handle stays empty after the call. -/
theorem forward_adapter_workspace
    (opts : LayerOptions) (st : FfnState) (out : TensorMapOut)
    (inp : TensorMapIn) (w : LlamaFfnWeight) (token_num : Nat) (layer_id : Int)
    (st₂ : FfnState)
    (hin : inp.ffn_input_token_num = some token_num)
    (hid : inp.layer_id = some layer_id)
    (hout : out.has_ffn_output = true)
    (hres : ffnResult opts st out inp w = Except.ok st₂) :
    ((ffnTrace opts st out inp w).filter Event.isAllocLora =
      if w.gating.lora.r + w.intermediate.lora.r = 0 then []
      else
        [Event.allocLora
          (token_num * (w.gating.lora.r + w.intermediate.lora.r))]) ∧
    (w.gating.lora.r = 0 → w.intermediate.lora.r = 0 → st.lora_buf = none →
      st₂.lora_buf = none) := by
  constructor
  · by_cases hr : w.gating.lora.r + w.intermediate.lora.r = 0 <;>
      cases hk : w.fused_gating_intermediate.kernel <;>
      cases hs : w.is_fused_silu <;>
      cases ho : opts.is_free_buffer_after_forward <;>
      simp [ffnTrace, forward, hin, hid, hout, hk, hs, ho, hr,
        allocateBuffer, activation, freeBuffer, Event.isAllocLora, loraPtr]
  · intro h1 h2 h3
    cases hk : w.fused_gating_intermediate.kernel <;>
      cases hs : w.is_fused_silu <;>
      cases ho : opts.is_free_buffer_after_forward <;>
      simp only [ffnResult, forward, hin, hid, hout, hk, hs, ho,
        allocateBuffer, freeBuffer, h1, h2, h3, Nat.add_zero, Nat.zero_add,
        ne_eq, not_true_eq_false, not_false_eq_true, if_true, if_false,
        reduceIte, Bool.and_self, Bool.and_false, Bool.and_true,
        Bool.false_and, Bool.true_and, Bool.not_true, Bool.not_false,
        Except.ok.injEq] at hres <;>
      subst hres <;> rfl

/-- C7 witness: with adapter ranks zero, no workspace allocation request
appears in the trace. -/
theorem forward_adapter_workspace_witness :
    (ffnTrace { is_free_buffer_after_forward := false } FfnState.init
        { has_ffn_output := true }
        { ffn_input_token_num := some 4, layer_id := some 5,
          has_lora_mask := false }
        exWeightsFusedSilu).filter Event.isAllocLora = [] :=
  ((forward_adapter_workspace { is_free_buffer_after_forward := false }
      FfnState.init { has_ffn_output := true }
      { ffn_input_token_num := some 4, layer_id := some 5,
        has_lora_mask := false }
      exWeightsFusedSilu 4 5
      { gating_buf := some 64, inter_buf := Ptr.gating 64, lora_buf := none,
        is_allocate_buffer := true }
      rfl rfl rfl rfl).1).trans (by decide)

/-- C8: with the free-after-forward policy enabled, a forward call ends by
releasing the gating buffer and adapter workspace (its trace is the
policy-off trace followed by the two frees) and leaves the layer with empty
handles and no allocation marked; with the policy disabled the buffers are
retained across calls; releasing when nothing is allocated is a no-op. -/
theorem forward_free_buffer_policy
    (opts : LayerOptions) (st : FfnState) (out : TensorMapOut)
    (inp : TensorMapIn) (w : LlamaFfnWeight) (token_num : Nat) (layer_id : Int)
    (st₂ : FfnState)
    (hin : inp.ffn_input_token_num = some token_num)
    (hid : inp.layer_id = some layer_id)
    (hout : out.has_ffn_output = true)
    (hres : ffnResult opts st out inp w = Except.ok st₂) :
    (opts.is_free_buffer_after_forward = true →
      ffnTrace opts st out inp w =
        ffnTrace { is_free_buffer_after_forward := false } st out inp w ++
          [Event.freeGating, Event.freeLora] ∧
      st₂.gating_buf = none ∧ st₂.lora_buf = none ∧
      st₂.is_allocate_buffer = false) ∧
    (opts.is_free_buffer_after_forward = false →
      st₂ = postAllocState st token_num w ∧
      st₂.is_allocate_buffer = true) ∧
    (st.is_allocate_buffer = false → freeBuffer st = ([], st)) := by
  refine ⟨fun hfree => ?_, fun hkeep => ?_, fun hna => ?_⟩
  · cases hk : w.fused_gating_intermediate.kernel <;>
      cases hs : w.is_fused_silu <;>
      simp only [ffnResult, forward, hin, hid, hout, hk, hs, hfree,
        allocateBuffer, freeBuffer, Bool.and_self, Bool.and_false,
        Bool.and_true, Bool.false_and, Bool.true_and, Bool.not_true,
        Bool.not_false, if_true, if_false, reduceIte,
        Except.ok.injEq] at hres <;>
      subst hres <;>
      refine ⟨?_, rfl, rfl, rfl⟩ <;>
      simp [ffnTrace, forward, hin, hid, hout, hk, hs, hfree,
        allocateBuffer, activation, freeBuffer, loraPtr]
  · cases hk : w.fused_gating_intermediate.kernel <;>
      cases hs : w.is_fused_silu <;>
      simp only [ffnResult, forward, hin, hid, hout, hk, hs, hkeep,
        allocateBuffer, freeBuffer, Bool.and_self, Bool.and_false,
        Bool.and_true, Bool.false_and, Bool.true_and, Bool.not_true,
        Bool.not_false, if_true, if_false, reduceIte,
        Except.ok.injEq] at hres <;>
      subst hres <;>
      exact ⟨by simp [postAllocState, allocateBuffer, hk, hs], rfl⟩
  · simp [freeBuffer, hna]

/-- C8 witness: with the policy on, the concrete trace ends with the two
frees and the layer ends holding no allocation. -/
theorem forward_free_buffer_policy_witness :
    ffnTrace { is_free_buffer_after_forward := true } FfnState.init
        { has_ffn_output := true }
        { ffn_input_token_num := some 4, layer_id := some 5,
          has_lora_mask := true }
        exWeightsFusedUn =
      ffnTrace { is_free_buffer_after_forward := false } FfnState.init
          { has_ffn_output := true }
          { ffn_input_token_num := some 4, layer_id := some 5,
            has_lora_mask := true }
          exWeightsFusedUn ++
        [Event.freeGating, Event.freeLora] :=
  ((forward_free_buffer_policy { is_free_buffer_after_forward := true }
      FfnState.init { has_ffn_output := true }
      { ffn_input_token_num := some 4, layer_id := some 5,
        has_lora_mask := true }
      exWeightsFusedUn 4 5
      { gating_buf := none, inter_buf := Ptr.gating 64, lora_buf := none,
        is_allocate_buffer := false }
      rfl rfl rfl rfl).1 rfl).1

/-- C9: after every buffer allocation the intermediate-region pointer is the
gating base plus `token_num * inter_size` elements; in the `FUSED_SILU`
state a fresh gating allocation holds exactly `token_num * inter_size`
elements, so the view points past its end, and no issued operation touches
that pointer. -/
theorem forward_inter_buf_past_end_view
    (opts : LayerOptions) (st : FfnState) (out : TensorMapOut)
    (inp : TensorMapIn) (w : LlamaFfnWeight) (token_num : Nat) (layer_id : Int)
    (hin : inp.ffn_input_token_num = some token_num)
    (hid : inp.layer_id = some layer_id)
    (hout : out.has_ffn_output = true)
    (hpos : 0 < token_num * w.inter_size) :
    (postAllocState st token_num w).inter_buf =
      Ptr.gating (token_num * w.inter_size) ∧
    (selectPath w = FfnPath.FUSED_SILU → st.gating_buf = none →
      (postAllocState st token_num w).gating_buf =
        some (token_num * w.inter_size) ∧
      (ffnTrace opts st out inp w).all
        (notTouches (Ptr.gating (token_num * w.inter_size))) = true) := by
  have hne : token_num * w.inter_size ≠ 0 := Nat.pos_iff_ne_zero.mp hpos
  have hne' : (0 : Nat) ≠ token_num * w.inter_size := Ne.symm hne
  refine ⟨by simp [postAllocState, allocateBuffer], fun hsel hg => ?_⟩
  cases hk : w.fused_gating_intermediate.kernel <;>
    cases hs : w.is_fused_silu <;>
    simp only [selectPath, hk, hs, Bool.and_self, Bool.and_false,
      Bool.and_true, Bool.false_and, Bool.true_and, if_true, if_false,
      reduceIte, reduceCtorEq] at hsel
  constructor
  · simp [postAllocState, allocateBuffer, hk, hs, hg, reMallocSize]
  · by_cases hr : w.gating.lora.r + w.intermediate.lora.r = 0 <;>
      cases hl : st.lora_buf <;>
      cases hm : inp.has_lora_mask <;>
      cases ho : opts.is_free_buffer_after_forward <;>
      simp [ffnTrace, forward, hin, hid, hout, hk, hs, hr, hl, hm, ho,
        allocateBuffer, activation, freeBuffer, loraPtr, notTouches,
        Event.touches, hne, hne']

/-- C9 witness: on concrete fused-silu weights with 4 tokens and
`inter_size` 16, no issued operation touches `gating_buf_ + 64`. -/
theorem forward_inter_buf_past_end_view_witness :
    (ffnTrace { is_free_buffer_after_forward := false } FfnState.init
        { has_ffn_output := true }
        { ffn_input_token_num := some 4, layer_id := some 5,
          has_lora_mask := false }
        exWeightsFusedSilu).all (notTouches (Ptr.gating 64)) = true :=
  ((forward_inter_buf_past_end_view { is_free_buffer_after_forward := false }
      FfnState.init { has_ffn_output := true }
      { ffn_input_token_num := some 4, layer_id := some 5,
        has_lora_mask := false }
      exWeightsFusedSilu 4 5 rfl rfl rfl (by decide)).2 (by decide) rfl).2

/-- C10: when the fused gate+up descriptor is present, the fused projection
engine call passes neither the adapter workspace nor the per-token mask
(both optional arguments are omitted), even though the adapter workspace is
still allocated whenever the combined gate/up rank is nonzero. -/
theorem forward_fused_projection_no_adapter
    (opts : LayerOptions) (st : FfnState) (out : TensorMapOut)
    (inp : TensorMapIn) (w : LlamaFfnWeight) (token_num : Nat) (layer_id : Int)
    (hin : inp.ffn_input_token_num = some token_num)
    (hid : inp.layer_id = some layer_id)
    (hout : out.has_ffn_output = true)
    (hk : w.fused_gating_intermediate.kernel = true) :
    (ffnTrace opts st out inp w).filter Event.isFusedProj =
      [Event.linearFwd (Ptr.gating 0) Ptr.input 0 token_num WeightId.fused
        (if w.is_fused_silu then LinearType.kFusedSiluFfn
         else LinearType.kGemm)
        none none] ∧
    (0 < w.gating.lora.r + w.intermediate.lora.r →
      (ffnTrace opts st out inp w).filter Event.isAllocLora =
        [Event.allocLora
          (token_num * (w.gating.lora.r + w.intermediate.lora.r))]) := by
  constructor
  · cases hs : w.is_fused_silu <;>
      cases ho : opts.is_free_buffer_after_forward <;>
      simp [ffnTrace, forward, hin, hid, hout, hk, hs, ho,
        allocateBuffer, activation, freeBuffer, Event.isFusedProj, loraPtr]
  · intro hr
    have hr' : w.gating.lora.r + w.intermediate.lora.r ≠ 0 :=
      Nat.pos_iff_ne_zero.mp hr
    cases hs : w.is_fused_silu <;>
      cases ho : opts.is_free_buffer_after_forward <;>
      simp [ffnTrace, forward, hin, hid, hout, hk, hs, ho, hr',
        allocateBuffer, activation, freeBuffer, Event.isAllocLora, loraPtr]

/-- C10 witness: on concrete fused-unactivated weights with ranks 2 and 3
and a supplied mask, the fused call omits both optional arguments. -/
theorem forward_fused_projection_no_adapter_witness :
    (ffnTrace { is_free_buffer_after_forward := false } FfnState.init
        { has_ffn_output := true }
        { ffn_input_token_num := some 4, layer_id := some 5,
          has_lora_mask := true }
        exWeightsFusedUn).filter Event.isFusedProj =
      [Event.linearFwd (Ptr.gating 0) Ptr.input 0 4 WeightId.fused
        LinearType.kGemm none none] :=
  ((forward_fused_projection_no_adapter _ _ _ _ exWeightsFusedUn 4 5
      rfl rfl rfl rfl).1).trans (by decide)

end FfnLayer
